import Mathlib

/-!
Shallow embedding of the popcorn CI orchestrator (`src/popcorn/popcorn.py`,
`src/popcorn/libpopcorn/git.py`, `src/popcorn/libpopcorn/podman.py`).

External collaborators (subprocesses, GitHub REST, the filesystem) are
modelled as environment records holding the outcome each call would
produce; the orchestrator functions are translated as pure functions of
those environments, returning the trace of external actions they perform
together with either a normal return or a process exit code.  A Python
`sys.exit(1)`, an uncaught library exception and a failed `assert`
statement all terminate the interpreter with a non-zero process status;
all three are modelled as `Except.error 1`.  A normal return from a
`click` command handler makes the process exit with status 0; that is
modelled as `Except.ok`.
-/

namespace Popcorn

/-- Python `s.endswith(t)`: `t` is a suffix of the character sequence of `s`.
Used at popcorn.py:408 for the s3gw runtime-image lookup. -/
def strEndsWith (s t : String) : Bool := decide (t.data <:+ s.data)

/-- Python `t in s`: `t` occurs as a contiguous substring of `s`.
Used at popcorn.py:431 for the builder-image lookup. -/
def strContains (s t : String) : Bool := decide (t.data <:+: s.data)

/-- `libpopcorn/podman.py` `PodmanImage`: one name/tag pair from
`podman images`. -/
structure PodmanImage where
  name : String
  tag : String
  sha : String
  deriving DecidableEq, Repr

/-- The loop condition at popcorn.py:408:
`img.name.endswith("popcorn/s3gw") and ceph_commit == img.tag`. -/
def s3gwImageMatches (ceph_commit : String) (img : PodmanImage) : Bool :=
  strEndsWith img.name "popcorn/s3gw" && ceph_commit == img.tag

/-- The loop condition at popcorn.py:431:
`"popcorn/builder" in img.name and tools_commit == img.tag`. -/
def builderImageMatches (tools_commit : String) (img : PodmanImage) : Bool :=
  strContains img.name "popcorn/builder" && tools_commit == img.tag

/-- The first-match scan over `images` at popcorn.py:407-410 that looks for
an existing s3gw runtime image tagged with the ceph commit. -/
def findS3gwImage (images : List PodmanImage) (ceph_commit : String) :
    Option PodmanImage :=
  images.find? (s3gwImageMatches ceph_commit)

/-- The first-match scan over `images` at popcorn.py:430-433 that looks for
an existing builder image tagged with the s3gw-tools commit. -/
def findBuilderImage (images : List PodmanImage) (tools_commit : String) :
    Option PodmanImage :=
  images.find? (builderImageMatches tools_commit)

/-- Python `s.strip()`: drop leading and trailing whitespace.  Used on
subprocess standard output at popcorn.py:286 and git.py:58. -/
def pyStrip (s : String) : String :=
  ⟨((s.data.dropWhile Char.isWhitespace).reverse.dropWhile Char.isWhitespace).reverse⟩

/-- One external action performed by the workflow, in the order the Python
code issues them.  Repository-name payloads are the string literals from the
source; ref/commit/image payloads carry the value the call was made with. -/
inductive Event where
  | checkPr (repo : String) (id : Nat)
  | prFetch (repo : String) (id : Nat)
  | getRemotes
  | addRemote (name url : String)
  | updateRemotes (remote : String)
  | fetchBranch (remote branch : String)
  | clean (repo : String)
  | checkout (repo branch : String)
  | listImages
  | getCommit (repo : String)
  | lookupS3gw (rev : String)
  | lookupBuilder (rev : String)
  | buildBuilder (tag : String)
  | runBuilder (image : String)
  | buildS3gw (image : String)
  | startS3gw (image : String)
  | runHarness
  | stopS3gw
  deriving DecidableEq, Repr

/-- Outcome of `git.pr_exists` (git.py:24-38): a 200 response whose JSON may
or may not carry a true `merged` field, a 404 (`NotFoundError`), or any other
status (`PopcornError`). -/
inductive PrLookup where
  | found (merged : Option Bool)
  | notFound
  | otherError
  deriving DecidableEq, Repr

/-- popcorn.py:309-321 `check_pr_exists`: echoes its progress messages and
either returns or terminates the process with exit status 1.  The returned
list is exactly the sequence of `click.echo` messages the function prints. -/
def check_pr_exists (repo : String) (id : Nat) (lookup : PrLookup)
    (not_merged : Bool) : List String × Except Nat Unit :=
  let msg0 := "check if PR  #" ++ toString id ++ " exists on repository '" ++ repo ++ "'..."
  match lookup with
  | .found merged =>
    if not_merged && merged == some true then
      ([msg0, "PR #" ++ toString id ++ " has been merged."], .error 1)
    else
      ([msg0], .ok ())
  | .notFound =>
    ([msg0, "error: PR #" ++ toString id ++ " not found on repository '" ++ repo ++ "'."],
      .error 1)
  | .otherError =>
    ([msg0, "error obtaining PR #" ++ toString id ++ " on repository '" ++ repo ++ "'."],
      .error 1)

/-- Outcomes of the external calls `run_tests` (popcorn.py:260-306) makes:
the `tests/run-tests.sh` filesystem probes behind the two asserts, the
`podman run --detach` start, the harness subprocess and the `podman stop`. -/
structure TestEnv where
  testsPathExists : Bool
  testsPathIsFile : Bool
  startReturncode : Nat
  startStdout : String
  harnessReturncode : Nat
  stopReturncode : Nat
  deriving DecidableEq, Repr

/-- popcorn.py:260-306 `run_tests`: start the s3gw container (exit 1 on
failure), run the harness (its exit code only selects the returned boolean),
then always stop the container (exit 1 on failure).  The failed-`assert`
paths terminate the interpreter, modelled as exit code 1. -/
def run_tests (tenv : TestEnv) (s3gw_img : String) : List Event × Except Nat Bool :=
  if !(tenv.testsPathExists && tenv.testsPathIsFile) then
    ([], .error 1)
  else if tenv.startReturncode != 0 then
    ([.startS3gw s3gw_img], .error 1)
  else if (pyStrip tenv.startStdout).length = 0 then
    ([.startS3gw s3gw_img], .error 1)
  else
    let success := tenv.harnessReturncode == 0
    if tenv.stopReturncode != 0 then
      ([.startS3gw s3gw_img, .runHarness, .stopS3gw], .error 1)
    else
      ([.startS3gw s3gw_img, .runHarness, .stopS3gw], .ok success)

/-- popcorn.py:414 and :492 call `run_tests(...)` as a statement: the boolean
verdict it returns is dropped and only an exit raised inside it can still
change the process status. -/
def dropVerdict : Except Nat Bool → Except Nat Unit
  | .error c => .error c
  | .ok _ => .ok ()

/-- popcorn.py:42-44 `AdditionalRepositoryConfig`. -/
structure AdditionalRepositoryConfig where
  name : String
  url : String
  deriving DecidableEq, Repr

/-- popcorn.py:47-50 `Config` (the workspace path plays no role in the
decision logic modelled here beyond being threaded through). -/
structure Config where
  workspace : String
  ccache : Option String
  additional_repos : Option (List AdditionalRepositoryConfig)
  deriving DecidableEq, Repr

/-- Outcomes of the external calls `run_for_local` (popcorn.py:347-492)
makes, one field per call site, in source order.  An `Except.error` value
is the `PopcornError` (diagnostic message) the library call would raise;
`buildS3gwReturncode` is the exit status of the raw `podman build`
subprocess at popcorn.py:487. -/
structure WorkflowEnv where
  toolsPrLookup : PrLookup
  toolsPrFetch : Except String String
  cleanCeph : Except String Unit
  cleanTools : Except String Unit
  checkoutCeph : Except String Unit
  checkoutTools : Except String Unit
  images : Except String (List PodmanImage)
  cephCommit : Except String String
  toolsCommit : Except String String
  buildBuilder : Except String Unit
  runBuilder : Except String Unit
  buildS3gwReturncode : Nat
  test : TestEnv

/-- popcorn.py:460-492, after a builder image is available: run the builder
container over the ceph tree (fatal on error), `podman build` the s3gw image
(fatal on non-zero exit), then hand over to `run_tests`, whose boolean
result is dropped. -/
def compileStage (env : WorkflowEnv) (build_image s3gw_image : String) :
    List Event × Except Nat Unit :=
  match env.runBuilder with
  | .error _ => ([.runBuilder build_image], .error 1)
  | .ok _ =>
    if env.buildS3gwReturncode != 0 then
      ([.runBuilder build_image, .buildS3gw s3gw_image], .error 1)
    else
      let t := run_tests env.test s3gw_image
      ([.runBuilder build_image, .buildS3gw s3gw_image] ++ t.1, dropVerdict t.2)

/-- popcorn.py:420-444: obtain the s3gw-tools commit (with the non-empty
assert at :426), scan the listing for an existing builder image tagged with
it, and build a fresh `popcorn/builder:<tools_commit>` image on a miss
(`podman.build_image`, podman.py:56-78, returns that very name). -/
def builderStage (env : WorkflowEnv) (images : List PodmanImage)
    (s3gw_image : String) : List Event × Except Nat Unit :=
  match env.toolsCommit with
  | .error _ => ([.getCommit "s3gw-tools"], .error 1)
  | .ok tools_commit =>
    if tools_commit.length = 0 then
      ([.getCommit "s3gw-tools"], .error 1)
    else
      match findBuilderImage images tools_commit with
      | some bimg =>
        let t := compileStage env (bimg.name ++ ":" ++ bimg.tag) s3gw_image
        ([.getCommit "s3gw-tools", .lookupBuilder tools_commit] ++ t.1, t.2)
      | none =>
        match env.buildBuilder with
        | .error _ =>
          ([.getCommit "s3gw-tools", .lookupBuilder tools_commit,
            .buildBuilder tools_commit], .error 1)
        | .ok _ =>
          let t := compileStage env ("popcorn/builder:" ++ tools_commit) s3gw_image
          ([.getCommit "s3gw-tools", .lookupBuilder tools_commit,
            .buildBuilder tools_commit] ++ t.1, t.2)

/-- popcorn.py:404-416: scan the listing for an s3gw image tagged with the
ceph commit; on a hit run the tests directly against `name:tag` of the found
image, on a miss fall through to the build stages with the image name
`popcorn/s3gw:<ceph_commit>` fixed at :416. -/
def buildPhase (env : WorkflowEnv) (images : List PodmanImage)
    (ceph_commit : String) : List Event × Except Nat Unit :=
  match findS3gwImage images ceph_commit with
  | some img =>
    let t := run_tests env.test (img.name ++ ":" ++ img.tag)
    (Event.lookupS3gw ceph_commit :: t.1, dropVerdict t.2)
  | none =>
    let t := builderStage env images ("popcorn/s3gw:" ++ ceph_commit)
    (Event.lookupS3gw ceph_commit :: t.1, t.2)

/-- popcorn.py:390-402: list the registry once (fatal on error), read the
ceph commit (fatal on error, and on the empty-string assert at :402), then
enter the cache-aware build phase. -/
def imagesPhase (env : WorkflowEnv) : List Event × Except Nat Unit :=
  match env.images with
  | .error _ => ([.listImages], .error 1)
  | .ok imgs =>
    match env.cephCommit with
    | .error _ => ([.listImages, .getCommit "ceph"], .error 1)
    | .ok ceph_commit =>
      if ceph_commit.length = 0 then
        ([.listImages, .getCommit "ceph"], .error 1)
      else
        let t := buildPhase env imgs ceph_commit
        ([.listImages, .getCommit "ceph"] ++ t.1, t.2)

/-- popcorn.py:368-388: clean both working trees (submodules included),
then check out the resolved ceph ref and the tools ref, each step fatal on
error, then continue with the registry phase. -/
def checkoutPhase (env : WorkflowEnv) (ceph_branch tools_branch : String) :
    List Event × Except Nat Unit :=
  match env.cleanCeph with
  | .error _ => ([.clean "ceph"], .error 1)
  | .ok _ =>
  match env.cleanTools with
  | .error _ => ([.clean "ceph", .clean "s3gw-tools"], .error 1)
  | .ok _ =>
  match env.checkoutCeph with
  | .error _ =>
    ([.clean "ceph", .clean "s3gw-tools", .checkout "ceph" ceph_branch], .error 1)
  | .ok _ =>
  match env.checkoutTools with
  | .error _ =>
    ([.clean "ceph", .clean "s3gw-tools", .checkout "ceph" ceph_branch,
      .checkout "s3gw-tools" tools_branch], .error 1)
  | .ok _ =>
    let t := imagesPhase env
    ([.clean "ceph", .clean "s3gw-tools", .checkout "ceph" ceph_branch,
      .checkout "s3gw-tools" tools_branch] ++ t.1, t.2)

/-- popcorn.py:347-492 `run_for_local`: when a tools PR id is supplied the
PR is checked (merged state ignored: `not_merged=False` at :357) and its
head fetched to become the tools branch; otherwise the tools branch is the
literal `"main"` (:354).  Then clean, checkout, registry listing, cache
lookups, builds and tests as per the phases above. -/
def run_for_local (env : WorkflowEnv) (config : Config) (ceph_branch : String)
    (tools_pr_id : Option Nat) : List Event × Except Nat Unit :=
  match tools_pr_id with
  | none => checkoutPhase env ceph_branch "main"
  | some id =>
    match (check_pr_exists "s3gw-tools" id env.toolsPrLookup false).2 with
    | .error c => ([.checkPr "s3gw-tools" id], .error c)
    | .ok _ =>
      match env.toolsPrFetch with
      | .error _ =>
        ([.checkPr "s3gw-tools" id, .prFetch "s3gw-tools" id], .error 1)
      | .ok tools_branch =>
        let t := checkoutPhase env ceph_branch tools_branch
        ([.checkPr "s3gw-tools" id, .prFetch "s3gw-tools" id] ++ t.1, t.2)

/-- Outcomes of the calls `workflow_run_pr` (popcorn.py:324-344) makes
before delegating to `run_for_local`. -/
structure PrRunEnv where
  cephPrLookup : PrLookup
  cephPrFetch : Except String String
  wenv : WorkflowEnv

/-- popcorn.py:324-344 `workflow_run_pr`: check the ceph PR exists and is
not merged (`not_merged=True` at :331) before anything else, then fetch its
head ref, then run the local workflow.  The first component is the list of
messages echoed by the top-level PR check (the `check_pr_exists` call). -/
def workflow_run_pr (penv : PrRunEnv) (config : Config) (pr_id : Nat)
    (tools_pr_id : Option Nat) : List String × List Event × Except Nat Unit :=
  let chk := check_pr_exists "ceph" pr_id penv.cephPrLookup true
  match chk.2 with
  | .error c => (chk.1, [.checkPr "ceph" pr_id], .error c)
  | .ok _ =>
    match penv.cephPrFetch with
    | .error _ => (chk.1, [.checkPr "ceph" pr_id, .prFetch "ceph" pr_id], .error 1)
    | .ok ceph_branch =>
      let t := run_for_local penv.wenv config ceph_branch tools_pr_id
      (chk.1, [.checkPr "ceph" pr_id, .prFetch "ceph" pr_id] ++ t.1, t.2)

/-- Python rendering of an `Optional[str]` inside an f-string: `None` prints
as the literal `None` (the messages at popcorn.py:232 and :241 interpolate
the raw `remote` option, not the defaulted `origin`). -/
def pyShowOpt : Option String → String
  | none => "None"
  | some s => s

/-- Outcomes of the calls `workflow_run_branch` (popcorn.py:206-257) makes
before delegating to `run_for_local`.  `remotes` is the name set returned by
`git.get_remotes`; a successful `git.add_remote` for name `n` makes the
re-listing at popcorn.py:244 return `remotes ++ [n]`. -/
structure BranchRunEnv where
  remotes : List String
  addRemote : Except String Unit
  update : Except String Unit
  fetchBranch : Except String String
  wenv : WorkflowEnv

/-- popcorn.py:248-257, once `assert origin in remotes` has passed: update
the remote's refs (`git.update` raises an uncaught `PopcornError` on
failure, terminating with a traceback and status 1), fetch the branch into
its namespaced local ref (caught: echo the message and exit 1), then run the
local workflow. -/
def branchAfterRemotes (benv : BranchRunEnv) (config : Config) (name origin : String)
    (tools_pr_id : Option Nat) (msgs : List String) (tr : List Event) :
    List String × List Event × Except Nat Unit :=
  match benv.update with
  | .error _ => (msgs, tr ++ [.updateRemotes origin], .error 1)
  | .ok _ =>
    match benv.fetchBranch with
    | .error m =>
      (msgs ++ [m], tr ++ [.updateRemotes origin, .fetchBranch origin name], .error 1)
    | .ok ceph_branch =>
      let t := run_for_local benv.wenv config ceph_branch tools_pr_id
      (msgs, tr ++ [.updateRemotes origin, .fetchBranch origin name] ++ t.1, t.2)

/-- popcorn.py:226: `origin = "origin" if remote is None else remote`. -/
def originOf : Option String → String
  | none => "origin"
  | some r => r

/-- popcorn.py:206-257 `workflow_run_branch`: default the remote to
`"origin"`, and when it is not among the repository's remotes fall back to
the configuration: with no `additional_repos` list echo and exit 1
(:231-233); with a matching entry add the remote (`git.add_remote` failure
is an uncaught `PopcornError`) and re-list; with no matching entry echo
(:241, without exiting), re-list, and let `assert origin in remotes` (:246)
kill the interpreter with status 1. -/
def workflow_run_branch (benv : BranchRunEnv) (config : Config) (name : String)
    (remote : Option String) (tools_pr_id : Option Nat) :
    List String × List Event × Except Nat Unit :=
  let origin := originOf remote
  if benv.remotes.contains origin then
    branchAfterRemotes benv config name origin tools_pr_id [] [.getRemotes]
  else
    match config.additional_repos with
    | none =>
      (["unable to find remote '" ++ pyShowOpt remote ++ ".'"],
        [.getRemotes], .error 1)
    | some lst =>
      match lst.find? (fun r => r.name == origin) with
      | some r =>
        match benv.addRemote with
        | .error _ =>
          ([], [.getRemotes, .addRemote r.name (r.url ++ "/ceph")], .error 1)
        | .ok _ =>
          if (benv.remotes ++ [r.name]).contains origin then
            branchAfterRemotes benv config name origin tools_pr_id []
              [.getRemotes, .addRemote r.name (r.url ++ "/ceph"), .getRemotes]
          else
            ([], [.getRemotes, .addRemote r.name (r.url ++ "/ceph"), .getRemotes],
              .error 1)
      | none =>
        if benv.remotes.contains origin then
          branchAfterRemotes benv config name origin tools_pr_id
            ["unable to find remote '" ++ pyShowOpt remote ++ "' in config."]
            [.getRemotes, .getRemotes]
        else
          (["unable to find remote '" ++ pyShowOpt remote ++ "' in config."],
            [.getRemotes, .getRemotes], .error 1)

/-- Outcomes of the two subprocesses `git.fetch` (git.py:41-85) runs:
`git branch --show-current`, and the fetch-or-pull command. -/
structure FetchEnv where
  showCurrentReturncode : Nat
  showCurrentStdout : String
  showCurrentStderr : String
  cmdReturncode : Nat
  cmdStderr : String
  deriving DecidableEq, Repr

/-- The git command `git.fetch` ends up issuing: either
`git fetch <origin> <branch>:<localname>` or, when the namespaced local ref
is the currently checked-out branch, `git pull --force <origin>
<branch>:<localname>` (git.py:60-73). -/
inductive GitFetchCmd where
  | fetchInto (origin refspec : String)
  | pullForce (origin refspec : String)
  deriving DecidableEq, Repr

/-- git.py:41-85 `fetch`: compute `popcorn/<origin>/<branch>`, read the
current branch (error carries that subprocess's stderr), pick pull-vs-fetch
by comparing it with the local namespaced name, run the command (error
carries its stderr), and return the local name.  The issued command is
returned alongside for observability. -/
def git_fetch (fenv : FetchEnv) (repo origin branch : String) :
    Except String (GitFetchCmd × String) :=
  let localname := "popcorn/" ++ origin ++ "/" ++ branch
  if fenv.showCurrentReturncode != 0 then
    .error ("error obtaining branch: " ++ fenv.showCurrentStderr)
  else
    let cur_branch := pyStrip fenv.showCurrentStdout
    let cmd :=
      if cur_branch == localname then
        GitFetchCmd.pullForce origin (branch ++ ":" ++ localname)
      else
        GitFetchCmd.fetchInto origin (branch ++ ":" ++ localname)
    if fenv.cmdReturncode != 0 then
      .error ("error fetching branch " ++ branch ++ " for repository " ++ repo
        ++ ": " ++ fenv.cmdStderr)
    else
      .ok (cmd, localname)

/-! ## Helper lemmas -/

theorem suffix_total {α : Type} {l₁ l₂ l₃ : List α} (h₁ : l₁ <:+ l₃)
    (h₂ : l₂ <:+ l₃) : l₁ <:+ l₂ ∨ l₂ <:+ l₁ := by
  rcases List.prefix_or_prefix_of_prefix (List.reverse_prefix.mpr h₁)
      (List.reverse_prefix.mpr h₂) with h | h
  · exact Or.inl (List.reverse_prefix.mp h)
  · exact Or.inr (List.reverse_prefix.mp h)

theorem not_s3gw_and_builder_suffix (s : String) :
    strEndsWith s "popcorn/s3gw" = true →
    strEndsWith s "popcorn/builder" = false := by
  intro h1
  by_contra hc
  have h2 : strEndsWith s "popcorn/builder" = true := by
    revert hc; cases strEndsWith s "popcorn/builder" <;> simp
  have hs1 : ("popcorn/s3gw".data : List Char) <:+ s.data :=
    of_decide_eq_true h1
  have hs2 : ("popcorn/builder".data : List Char) <:+ s.data :=
    of_decide_eq_true h2
  rcases suffix_total hs1 hs2 with h | h
  · exact absurd h (by decide)
  · exact absurd h (by decide)

theorem find?_bool_iff {α : Type} (p : α → Bool) (l : List α) (a : α) :
    l.find? p = some a ↔
      ∃ as bs, l = as ++ a :: bs ∧ p a = true ∧ ∀ x ∈ as, p x = false := by
  rw [List.find?_eq_some]
  constructor
  · rintro ⟨hp, as, bs, h, hfirst⟩
    exact ⟨as, bs, h, hp, fun x hx => by simpa using hfirst x hx⟩
  · rintro ⟨as, bs, h, hp, hfirst⟩
    exact ⟨hp, as, bs, h, fun x hx => by simp [hfirst x hx]⟩

theorem s3gw_matches_iff (rev : String) (x : PodmanImage) :
    s3gwImageMatches rev x = true ↔
      (strEndsWith x.name "popcorn/s3gw" = true ∧ rev = x.tag) := by
  simp [s3gwImageMatches]

theorem builder_matches_iff (rev : String) (x : PodmanImage) :
    builderImageMatches rev x = true ↔
      (strContains x.name "popcorn/builder" = true ∧ rev = x.tag) := by
  simp [builderImageMatches]

/-! ## C2: artifact-cache matching policy -/

/-- C2 counterexample.  The claim says a lookup never returns an image whose
fully-qualified name does not end with the logical name.  The builder-image
lookup (popcorn.py:431) tests substring containment, not a suffix: an image
named `localhost/popcorn/builder-old` does not end with `popcorn/builder`,
yet the builder lookup keyed on its tag returns it. -/
theorem claim_C2_counterexample :
    strEndsWith "localhost/popcorn/builder-old" "popcorn/builder" = false ∧
    findBuilderImage [⟨"localhost/popcorn/builder-old", "t1", "x"⟩] "t1"
      = some ⟨"localhost/popcorn/builder-old", "t1", "x"⟩ := by
  constructor
  · decide
  · decide

/-- C2 amended: the runtime (s3gw) lookup returns the first image in listing
order whose name ends with `popcorn/s3gw` and whose tag equals the revision
exactly, and returns nothing else; the builder lookup does the same except
that its name condition is substring containment of `popcorn/builder`, not a
suffix test. -/
theorem claim_C2_amended (images : List PodmanImage) (rev : String)
    (img : PodmanImage) :
    (findS3gwImage images rev = some img ↔
      ∃ as bs, images = as ++ img :: bs ∧
        (strEndsWith img.name "popcorn/s3gw" = true ∧ rev = img.tag) ∧
        ∀ x ∈ as, ¬(strEndsWith x.name "popcorn/s3gw" = true ∧ rev = x.tag)) ∧
    (findBuilderImage images rev = some img ↔
      ∃ as bs, images = as ++ img :: bs ∧
        (strContains img.name "popcorn/builder" = true ∧ rev = img.tag) ∧
        ∀ x ∈ as, ¬(strContains x.name "popcorn/builder" = true ∧ rev = x.tag)) := by
  constructor
  · rw [findS3gwImage, find?_bool_iff]
    constructor
    · rintro ⟨as, bs, rfl, hp, hfirst⟩
      refine ⟨as, bs, rfl, (s3gw_matches_iff rev img).mp hp, fun x hx h => ?_⟩
      exact absurd ((s3gw_matches_iff rev x).mpr h) (by simp [hfirst x hx])
    · rintro ⟨as, bs, rfl, hp, hfirst⟩
      refine ⟨as, bs, rfl, (s3gw_matches_iff rev img).mpr hp, fun x hx => ?_⟩
      by_contra hcc
      have hx2 : s3gwImageMatches rev x = true := by
        revert hcc; cases s3gwImageMatches rev x <;> simp
      exact hfirst x hx ((s3gw_matches_iff rev x).mp hx2)
  · rw [findBuilderImage, find?_bool_iff]
    constructor
    · rintro ⟨as, bs, rfl, hp, hfirst⟩
      refine ⟨as, bs, rfl, (builder_matches_iff rev img).mp hp, fun x hx h => ?_⟩
      exact absurd ((builder_matches_iff rev x).mpr h) (by simp [hfirst x hx])
    · rintro ⟨as, bs, rfl, hp, hfirst⟩
      refine ⟨as, bs, rfl, (builder_matches_iff rev img).mpr hp, fun x hx => ?_⟩
      by_contra hcc
      have hx2 : builderImageMatches rev x = true := by
        revert hcc; cases builderImageMatches rev x <;> simp
      exact hfirst x hx ((builder_matches_iff rev x).mp hx2)

/-! ## Trace membership: which events each stage can emit -/

theorem run_tests_mem (tenv : TestEnv) (img : String) (e : Event)
    (h : e ∈ (run_tests tenv img).1) :
    e = Event.startS3gw img ∨ e = Event.runHarness ∨ e = Event.stopS3gw := by
  unfold run_tests at h
  repeat' split at h
  all_goals simp_all

theorem compileStage_mem (env : WorkflowEnv) (b s : String) (e : Event)
    (h : e ∈ (compileStage env b s).1) :
    e = Event.runBuilder b ∨ e = Event.buildS3gw s ∨
      e ∈ (run_tests env.test s).1 := by
  unfold compileStage at h
  repeat' split at h
  all_goals simp_all
  all_goals tauto

theorem builderStage_mem (env : WorkflowEnv) (images : List PodmanImage)
    (s : String) (e : Event) (h : e ∈ (builderStage env images s).1) :
    e = Event.getCommit "s3gw-tools" ∨
    (∃ t, env.toolsCommit = Except.ok t ∧
      (e = Event.lookupBuilder t ∨ e = Event.buildBuilder t)) ∨
    (∃ b, e ∈ (compileStage env b s).1) := by
  unfold builderStage at h
  repeat' split at h
  all_goals simp_all
  all_goals tauto

theorem buildPhase_mem (env : WorkflowEnv) (images : List PodmanImage)
    (c : String) (e : Event) (h : e ∈ (buildPhase env images c).1) :
    e = Event.lookupS3gw c ∨
    (∃ s, e ∈ (run_tests env.test s).1) ∨
    (∃ s, e ∈ (builderStage env images s).1) := by
  unfold buildPhase at h
  repeat' split at h
  all_goals simp_all
  all_goals try tauto
  rcases h with h | h
  · exact Or.inl h
  · exact Or.inr (Or.inl ⟨_, h⟩)

theorem imagesPhase_mem (env : WorkflowEnv) (e : Event)
    (h : e ∈ (imagesPhase env).1) :
    e = Event.listImages ∨ e = Event.getCommit "ceph" ∨
    (∃ imgs c, env.images = Except.ok imgs ∧ env.cephCommit = Except.ok c ∧
      e ∈ (buildPhase env imgs c).1) := by
  unfold imagesPhase at h
  repeat' split at h
  all_goals simp_all
  all_goals tauto

theorem checkoutPhase_mem (env : WorkflowEnv) (cb tb : String) (e : Event)
    (h : e ∈ (checkoutPhase env cb tb).1) :
    e = Event.clean "ceph" ∨ e = Event.clean "s3gw-tools" ∨
    e = Event.checkout "ceph" cb ∨ e = Event.checkout "s3gw-tools" tb ∨
    e ∈ (imagesPhase env).1 := by
  unfold checkoutPhase at h
  repeat' split at h
  all_goals simp_all
  all_goals tauto

theorem run_for_local_mem (env : WorkflowEnv) (config : Config) (br : String)
    (tp : Option Nat) (e : Event) (h : e ∈ (run_for_local env config br tp).1) :
    (∃ id, tp = some id ∧
      (e = Event.checkPr "s3gw-tools" id ∨ e = Event.prFetch "s3gw-tools" id)) ∨
    (∃ tb, e ∈ (checkoutPhase env br tb).1) := by
  unfold run_for_local at h
  repeat' split at h
  all_goals simp_all
  all_goals tauto

theorem lookupS3gw_keyed (env : WorkflowEnv) (config : Config) (br : String)
    (tp : Option Nat) (r : String)
    (h : Event.lookupS3gw r ∈ (run_for_local env config br tp).1) :
    env.cephCommit = Except.ok r := by
  rcases run_for_local_mem env config br tp _ h with ⟨id, htp, hpr | hpr⟩ | ⟨tb, h2⟩
  · simp at hpr
  · simp at hpr
  rcases checkoutPhase_mem env br tb _ h2 with h3 | h3 | h3 | h3 | h3 <;>
    try simp at h3
  rcases imagesPhase_mem env _ h3 with h4 | h4 | ⟨imgs, c, hi, hc, h5⟩ <;>
    try simp at h4
  rcases buildPhase_mem env imgs c _ h5 with h6 | ⟨s, h6⟩ | ⟨s, h6⟩
  · injection h6 with h7
    rw [h7]; exact hc
  · rcases run_tests_mem env.test s _ h6 with h7 | h7 | h7 <;> simp at h7
  · rcases builderStage_mem env imgs s _ h6 with h7 | ⟨t, ht, h7 | h7⟩ | ⟨b, h7⟩
    · simp at h7
    · simp at h7
    · simp at h7
    · rcases compileStage_mem env b s _ h7 with h8 | h8 | h8
      · simp at h8
      · simp at h8
      · rcases run_tests_mem env.test s _ h8 with h9 | h9 | h9 <;> simp at h9

theorem lookupBuilder_keyed (env : WorkflowEnv) (config : Config) (br : String)
    (tp : Option Nat) (r : String)
    (h : Event.lookupBuilder r ∈ (run_for_local env config br tp).1) :
    env.toolsCommit = Except.ok r := by
  rcases run_for_local_mem env config br tp _ h with ⟨id, htp, hpr | hpr⟩ | ⟨tb, h2⟩
  · simp at hpr
  · simp at hpr
  rcases checkoutPhase_mem env br tb _ h2 with h3 | h3 | h3 | h3 | h3 <;>
    try simp at h3
  rcases imagesPhase_mem env _ h3 with h4 | h4 | ⟨imgs, c, hi, hc, h5⟩ <;>
    try simp at h4
  rcases buildPhase_mem env imgs c _ h5 with h6 | ⟨s, h6⟩ | ⟨s, h6⟩
  · simp at h6
  · rcases run_tests_mem env.test s _ h6 with h7 | h7 | h7 <;> simp at h7
  · rcases builderStage_mem env imgs s _ h6 with h7 | ⟨t, ht, h7 | h7⟩ | ⟨b, h7⟩
    · simp at h7
    · injection h7 with h8
      rw [h8]; exact ht
    · simp at h7
    · rcases compileStage_mem env b s _ h7 with h8 | h8 | h8
      · simp at h8
      · simp at h8
      · rcases run_tests_mem env.test s _ h8 with h9 | h9 | h9 <;> simp at h9

/-! ## C4: revision-scoping of the two artifact lookups -/

/-- C4 counterexample.  The claim says a runtime artifact (an image whose
fully-qualified name ends with the logical name `popcorn/s3gw`, tolerating a
registry/namespace prefix) is never returned by the builder-artifact lookup.
But the builder lookup (popcorn.py:431) matches `popcorn/builder` as a
substring anywhere in the name, so a runtime artifact whose namespace
prefix contains `popcorn/builder` is returned by it — here with the two
revision strings textually equal. -/
theorem claim_C4_counterexample :
    strEndsWith "popcorn/builder/popcorn/s3gw" "popcorn/s3gw" = true ∧
    findBuilderImage [⟨"popcorn/builder/popcorn/s3gw", "abc", "x"⟩] "abc"
      = some ⟨"popcorn/builder/popcorn/s3gw", "abc", "x"⟩ ∧
    findS3gwImage [⟨"popcorn/builder/popcorn/s3gw", "abc", "x"⟩] "abc"
      = some ⟨"popcorn/builder/popcorn/s3gw", "abc", "x"⟩ :=
  ⟨by decide, by decide, by decide⟩

/-- C4 amended: a builder artifact (name ending in `popcorn/builder`) is
never returned by the runtime-artifact lookup; a runtime artifact is never
returned by the builder-artifact lookup provided its fully-qualified name
does not contain `popcorn/builder` as a substring (the builder lookup uses
substring containment, so a name whose registry/namespace prefix contains
`popcorn/builder` can be matched); and in `run_for_local` the runtime lookup
is keyed exactly on the ceph (target) repository's revision and the builder
lookup exactly on the s3gw-tools (tooling) repository's revision. -/
theorem claim_C4_amended :
    (∀ (images : List PodmanImage) (rev : String) (img : PodmanImage),
      findS3gwImage images rev = some img →
      strEndsWith img.name "popcorn/builder" = false) ∧
    (∀ (images : List PodmanImage) (rev : String) (img : PodmanImage),
      strContains img.name "popcorn/builder" = false →
      findBuilderImage images rev ≠ some img) ∧
    (∀ (env : WorkflowEnv) (config : Config) (br : String) (tp : Option Nat)
      (r : String), Event.lookupS3gw r ∈ (run_for_local env config br tp).1 →
      env.cephCommit = Except.ok r) ∧
    (∀ (env : WorkflowEnv) (config : Config) (br : String) (tp : Option Nat)
      (r : String), Event.lookupBuilder r ∈ (run_for_local env config br tp).1 →
      env.toolsCommit = Except.ok r) := by
  refine ⟨?_, ?_, lookupS3gw_keyed, lookupBuilder_keyed⟩
  · intro images rev img h
    have hp := List.find?_some h
    have := ((s3gw_matches_iff rev img).mp hp).1
    exact not_s3gw_and_builder_suffix img.name this
  · intro images rev img hno h
    have hp := List.find?_some h
    have := ((builder_matches_iff rev img).mp hp).1
    rw [hno] at this
    exact Bool.false_ne_true this

/-- C4 amended, witness: the `localhost/popcorn/s3gw` runtime image found by
the runtime lookup indeed does not carry the builder logical name. -/
theorem claim_C4_amended_witness :
    strEndsWith (PodmanImage.mk "localhost/popcorn/s3gw" "r" "x").name
      "popcorn/builder" = false :=
  claim_C4_amended.1 [PodmanImage.mk "localhost/popcorn/s3gw" "r" "x"] "r"
    (PodmanImage.mk "localhost/popcorn/s3gw" "r" "x") (by decide)

/-! ## C5: Test Runner teardown guarantee -/

/-- C5: whenever the runtime container starts successfully (the harness
script exists and `podman run` exits 0 printing a non-empty container id),
the stop command is issued — the harness exit status is unconstrained here —
and a failing stop terminates the process with a non-zero status. -/
theorem claim_C5_teardown (tenv : TestEnv) (img : String)
    (h1 : tenv.testsPathExists = true) (h2 : tenv.testsPathIsFile = true)
    (h3 : tenv.startReturncode = 0)
    (h4 : (pyStrip tenv.startStdout).length ≠ 0) :
    Event.stopS3gw ∈ (run_tests tenv img).1 ∧
    (tenv.stopReturncode ≠ 0 → (run_tests tenv img).2 = Except.error 1) := by
  unfold run_tests
  constructor
  · repeat' split
    all_goals simp_all
  · intro hstop
    repeat' split
    all_goals simp_all

/-- C5 witness: harness fails (exit 1) and the stop also fails — the stop
was still issued and the process exits non-zero. -/
theorem claim_C5_witness :
    Event.stopS3gw ∈
      (run_tests ⟨true, true, 0, "cid", 1, 1⟩ "popcorn/s3gw:abc").1 ∧
    (run_tests ⟨true, true, 0, "cid", 1, 1⟩ "popcorn/s3gw:abc").2
      = Except.error 1 :=
  ⟨(claim_C5_teardown ⟨true, true, 0, "cid", 1, 1⟩ "popcorn/s3gw:abc" rfl rfl rfl
      (by decide)).1,
   (claim_C5_teardown ⟨true, true, 0, "cid", 1, 1⟩ "popcorn/s3gw:abc" rfl rfl rfl
      (by decide)).2 (by decide)⟩

/-! ## C1: the harness exit code and the process exit status -/

/-- A configuration value with no ccache and no additional repositories. -/
def cfg0 : Config := ⟨"/ws", none, none⟩

/-- An environment in which every fatal step succeeds, a cached s3gw image
for the ceph commit exists, and the test harness exits 1. -/
def envHarnessFail : WorkflowEnv where
  toolsPrLookup := .found none
  toolsPrFetch := .ok "popcorn/origin/pull/7/head"
  cleanCeph := .ok ()
  cleanTools := .ok ()
  checkoutCeph := .ok ()
  checkoutTools := .ok ()
  images := .ok [⟨"localhost/popcorn/s3gw", "abc", "x"⟩]
  cephCommit := .ok "abc"
  toolsCommit := .ok "def"
  buildBuilder := .ok ()
  runBuilder := .ok ()
  buildS3gwReturncode := 0
  test := ⟨true, true, 0, "cid", 1, 0⟩

/-- C1 counterexample.  The harness exits 1, `run_tests` reports the failed
verdict as `false`, yet `run_for_local` returns normally — the process exits
with status 0, not 1: the harness exit code does not determine the final
process status, because popcorn.py:414/:492 drop the returned boolean. -/
theorem claim_C1_counterexample :
    envHarnessFail.test.harnessReturncode ≠ 0 ∧
    (run_tests envHarnessFail.test "localhost/popcorn/s3gw:abc").2
      = Except.ok false ∧
    (run_for_local envHarnessFail cfg0 "popcorn/origin/b" none).2
      = Except.ok () :=
  ⟨by decide, rfl, rfl⟩

theorem run_tests_harness_inv (tenv : TestEnv) (img : String) (n : Nat) :
    (run_tests { tenv with harnessReturncode := n } img).1
      = (run_tests tenv img).1 ∧
    dropVerdict (run_tests { tenv with harnessReturncode := n } img).2
      = dropVerdict (run_tests tenv img).2 := by
  cases tenv
  unfold run_tests
  repeat' split
  all_goals simp_all [dropVerdict]

/-- `env` with the harness exit status replaced by `n`; every other
collaborator outcome unchanged. -/
def setHarness (env : WorkflowEnv) (n : Nat) : WorkflowEnv :=
  { env with test := { env.test with harnessReturncode := n } }

@[simp] theorem setHarness_toolsPrLookup (env : WorkflowEnv) (n : Nat) :
    (setHarness env n).toolsPrLookup = env.toolsPrLookup := rfl

@[simp] theorem setHarness_toolsPrFetch (env : WorkflowEnv) (n : Nat) :
    (setHarness env n).toolsPrFetch = env.toolsPrFetch := rfl

@[simp] theorem setHarness_cleanCeph (env : WorkflowEnv) (n : Nat) :
    (setHarness env n).cleanCeph = env.cleanCeph := rfl

@[simp] theorem setHarness_cleanTools (env : WorkflowEnv) (n : Nat) :
    (setHarness env n).cleanTools = env.cleanTools := rfl

@[simp] theorem setHarness_checkoutCeph (env : WorkflowEnv) (n : Nat) :
    (setHarness env n).checkoutCeph = env.checkoutCeph := rfl

@[simp] theorem setHarness_checkoutTools (env : WorkflowEnv) (n : Nat) :
    (setHarness env n).checkoutTools = env.checkoutTools := rfl

@[simp] theorem setHarness_images (env : WorkflowEnv) (n : Nat) :
    (setHarness env n).images = env.images := rfl

@[simp] theorem setHarness_cephCommit (env : WorkflowEnv) (n : Nat) :
    (setHarness env n).cephCommit = env.cephCommit := rfl

@[simp] theorem setHarness_toolsCommit (env : WorkflowEnv) (n : Nat) :
    (setHarness env n).toolsCommit = env.toolsCommit := rfl

@[simp] theorem setHarness_buildBuilder (env : WorkflowEnv) (n : Nat) :
    (setHarness env n).buildBuilder = env.buildBuilder := rfl

@[simp] theorem setHarness_runBuilder (env : WorkflowEnv) (n : Nat) :
    (setHarness env n).runBuilder = env.runBuilder := rfl

@[simp] theorem setHarness_buildS3gwReturncode (env : WorkflowEnv) (n : Nat) :
    (setHarness env n).buildS3gwReturncode = env.buildS3gwReturncode := rfl

theorem setHarness_test (env : WorkflowEnv) (n : Nat) :
    (setHarness env n).test = { env.test with harnessReturncode := n } := rfl

theorem compileStage_harness_inv (env : WorkflowEnv) (b s : String) (n : Nat) :
    compileStage (setHarness env n) b s = compileStage env b s := by
  unfold compileStage
  simp only [setHarness_runBuilder, setHarness_buildS3gwReturncode, setHarness_test]
  repeat' split
  all_goals try rfl
  all_goals rw [Prod.ext_iff]
  all_goals exact ⟨by rw [(run_tests_harness_inv env.test s n).1],
    (run_tests_harness_inv env.test s n).2⟩

theorem builderStage_harness_inv (env : WorkflowEnv) (images : List PodmanImage)
    (s : String) (n : Nat) :
    builderStage (setHarness env n) images s = builderStage env images s := by
  unfold builderStage
  simp only [setHarness_toolsCommit, setHarness_buildBuilder]
  repeat' split
  all_goals try rfl
  all_goals rw [compileStage_harness_inv]

theorem buildPhase_harness_inv (env : WorkflowEnv) (images : List PodmanImage)
    (c : String) (n : Nat) :
    buildPhase (setHarness env n) images c = buildPhase env images c := by
  unfold buildPhase
  simp only [setHarness_test]
  repeat' split
  all_goals try rfl
  · rw [Prod.ext_iff]
    refine ⟨?_, ?_⟩
    · rw [(run_tests_harness_inv env.test _ n).1]
    · simp only [(run_tests_harness_inv env.test _ n).2]
  · rw [builderStage_harness_inv]

theorem imagesPhase_harness_inv (env : WorkflowEnv) (n : Nat) :
    imagesPhase (setHarness env n) = imagesPhase env := by
  unfold imagesPhase
  simp only [setHarness_images, setHarness_cephCommit]
  repeat' split
  all_goals try rfl
  all_goals rw [buildPhase_harness_inv]

theorem checkoutPhase_harness_inv (env : WorkflowEnv) (cb tb : String) (n : Nat) :
    checkoutPhase (setHarness env n) cb tb = checkoutPhase env cb tb := by
  unfold checkoutPhase
  simp only [setHarness_cleanCeph, setHarness_cleanTools, setHarness_checkoutCeph,
    setHarness_checkoutTools]
  repeat' split
  all_goals try rfl
  all_goals rw [imagesPhase_harness_inv]

theorem run_for_local_harness_inv (env : WorkflowEnv) (config : Config)
    (br : String) (tp : Option Nat) (n : Nat) :
    run_for_local (setHarness env n) config br tp
      = run_for_local env config br tp := by
  unfold run_for_local
  simp only [setHarness_toolsPrLookup, setHarness_toolsPrFetch]
  repeat' split
  all_goals try rfl
  all_goals rw [checkoutPhase_harness_inv]

/-- C1 amended: the harness exit code alone determines the boolean verdict
`run_tests` computes and reports, but `run_for_local` drops that boolean
(popcorn.py:414/:492), so the trace and final process status of a workflow
run are invariant under any change of the harness exit code: the process
exits 0 exactly when every fatal step succeeds, whether or not the tests
passed. -/
theorem claim_C1_amended :
    (∀ (tenv : TestEnv) (img : String) (b : Bool),
      (run_tests tenv img).2 = Except.ok b →
      (b = true ↔ tenv.harnessReturncode = 0)) ∧
    (∀ (env : WorkflowEnv) (config : Config) (br : String) (tp : Option Nat)
      (n : Nat),
      run_for_local (setHarness env n) config br tp
        = run_for_local env config br tp) := by
  refine ⟨?_, run_for_local_harness_inv⟩
  intro tenv img b h
  unfold run_tests at h
  repeat' split at h
  all_goals simp_all
  rw [← h]
  simp

/-- C1 amended, witness: in the harness-failing environment the verdict is
`false` iff the harness exit code is non-zero, and rewriting the harness
exit code to 0 leaves the workflow outcome unchanged. -/
theorem claim_C1_amended_witness :
    (false = true ↔ (1 : Nat) = 0) ∧
    run_for_local (setHarness envHarnessFail 0) cfg0 "popcorn/origin/b" none
      = run_for_local envHarnessFail cfg0 "popcorn/origin/b" none :=
  ⟨claim_C1_amended.1 ⟨true, true, 0, "cid", 1, 0⟩ "i" false rfl,
   claim_C1_amended.2 envHarnessFail cfg0 "popcorn/origin/b" none 0⟩

/-! ## C3: the cache-hit fast path skips the whole build pipeline -/

/-- C3: if the registry listing holds an image whose name ends with
`popcorn/s3gw` and whose tag equals the resolved ceph revision, the workflow
performs no builder-image step, no compile step and no packaging step of any
kind, and runs the tests directly against the found image. -/
theorem claim_C3_fast_path (env : WorkflowEnv) (config : Config) (br : String)
    (imgs : List PodmanImage) (c : String) (img : PodmanImage)
    (h1 : env.cleanCeph = Except.ok ()) (h2 : env.cleanTools = Except.ok ())
    (h3 : env.checkoutCeph = Except.ok ()) (h4 : env.checkoutTools = Except.ok ())
    (h5 : env.images = Except.ok imgs) (h6 : env.cephCommit = Except.ok c)
    (h7 : c.length ≠ 0) (h8 : findS3gwImage imgs c = some img) :
    (run_for_local env config br none).1
      = [Event.clean "ceph", Event.clean "s3gw-tools",
         Event.checkout "ceph" br, Event.checkout "s3gw-tools" "main",
         Event.listImages, Event.getCommit "ceph", Event.lookupS3gw c]
        ++ (run_tests env.test (img.name ++ ":" ++ img.tag)).1 ∧
    (run_for_local env config br none).2
      = dropVerdict (run_tests env.test (img.name ++ ":" ++ img.tag)).2 ∧
    ∀ e ∈ (run_for_local env config br none).1,
      (∀ t, e ≠ Event.buildBuilder t) ∧ (∀ b, e ≠ Event.runBuilder b) ∧
      (∀ s, e ≠ Event.buildS3gw s) := by
  have key : run_for_local env config br none
      = ([Event.clean "ceph", Event.clean "s3gw-tools",
          Event.checkout "ceph" br, Event.checkout "s3gw-tools" "main",
          Event.listImages, Event.getCommit "ceph", Event.lookupS3gw c]
          ++ (run_tests env.test (img.name ++ ":" ++ img.tag)).1,
         dropVerdict (run_tests env.test (img.name ++ ":" ++ img.tag)).2) := by
    unfold run_for_local checkoutPhase imagesPhase buildPhase
    rw [h1, h2, h3, h4, h5, h6]
    simp [h7, h8]
  refine ⟨by rw [key], by rw [key], ?_⟩
  intro e he
  rw [key] at he
  simp only [List.mem_append] at he
  rcases he with he | he
  · simp only [List.mem_cons, List.not_mem_nil, or_false] at he
    rcases he with rfl | rfl | rfl | rfl | rfl | rfl | rfl <;> simp
  · rcases run_tests_mem env.test _ _ he with rfl | rfl | rfl <;> simp

/-- C3 witness: in the all-ok environment with a cached
`localhost/popcorn/s3gw:abc` image, the trace is the fast-path trace. -/
theorem claim_C3_witness :
    (run_for_local envHarnessFail cfg0 "popcorn/origin/b" none).1
      = [Event.clean "ceph", Event.clean "s3gw-tools",
         Event.checkout "ceph" "popcorn/origin/b",
         Event.checkout "s3gw-tools" "main",
         Event.listImages, Event.getCommit "ceph", Event.lookupS3gw "abc"]
        ++ (run_tests envHarnessFail.test "localhost/popcorn/s3gw:abc").1 :=
  (claim_C3_fast_path envHarnessFail cfg0 "popcorn/origin/b"
    [⟨"localhost/popcorn/s3gw", "abc", "x"⟩] "abc"
    ⟨"localhost/popcorn/s3gw", "abc", "x"⟩
    rfl rfl rfl rfl rfl rfl (by decide) (by decide)).1

/-! ## C10: the tooling repository defaults to the literal branch `main` -/

theorem checkoutPhase_no_pr (env : WorkflowEnv) (cb tb : String) (e : Event)
    (h : e ∈ (checkoutPhase env cb tb).1) :
    (∀ rp i, e ≠ Event.checkPr rp i) ∧ (∀ rp i, e ≠ Event.prFetch rp i) := by
  rcases checkoutPhase_mem env cb tb _ h with rfl | rfl | rfl | rfl | h3
  · simp
  · simp
  · simp
  · simp
  rcases imagesPhase_mem env _ h3 with rfl | rfl | ⟨imgs, c, hi, hc, h5⟩
  · simp
  · simp
  rcases buildPhase_mem env imgs c _ h5 with rfl | ⟨s, h6⟩ | ⟨s, h6⟩
  · simp
  · rcases run_tests_mem env.test s _ h6 with rfl | rfl | rfl <;> simp
  rcases builderStage_mem env imgs s _ h6 with rfl | ⟨t, ht, rfl | rfl⟩ | ⟨b, h7⟩
  · simp
  · simp
  · simp
  rcases compileStage_mem env b s _ h7 with rfl | rfl | h8
  · simp
  · simp
  rcases run_tests_mem env.test s _ h8 with rfl | rfl | rfl <;> simp

/-- C10: with no tooling-repository PR id supplied, no PR-existence check
and no PR fetch happen at all during the local workflow, and (as soon as the
clean steps and the ceph checkout succeed) the tooling repository is checked
out at the literal branch name `main`, not a namespaced popcorn ref. -/
theorem claim_C10_tools_main (env : WorkflowEnv) (config : Config) (br : String) :
    (∀ e ∈ (run_for_local env config br none).1,
      (∀ rp i, e ≠ Event.checkPr rp i) ∧ (∀ rp i, e ≠ Event.prFetch rp i)) ∧
    (env.cleanCeph = Except.ok () → env.cleanTools = Except.ok () →
      env.checkoutCeph = Except.ok () →
      Event.checkout "s3gw-tools" "main" ∈ (run_for_local env config br none).1) := by
  constructor
  · intro e he
    rcases run_for_local_mem env config br none _ he with ⟨id, htp, _⟩ | ⟨tb, h2⟩
    · exact absurd htp (by simp)
    · exact checkoutPhase_no_pr env br tb e h2
  · intro hc1 hc2 hc3
    have hred : run_for_local env config br none = checkoutPhase env br "main" := rfl
    rw [hred]
    unfold checkoutPhase
    simp only [hc1, hc2, hc3]
    split <;> simp

/-- C10 witness: instantiated at the all-ok environment. -/
theorem claim_C10_witness :
    Event.checkout "s3gw-tools" "main"
      ∈ (run_for_local envHarnessFail cfg0 "popcorn/origin/b" none).1 :=
  (claim_C10_tools_main envHarnessFail cfg0 "popcorn/origin/b").2 rfl rfl rfl

/-! ## C6: merged-state gate for target PRs, ignored for tooling PRs -/

/-- C6: a target-repository PR reported as merged makes the workflow exit
with status 1 after echoing `PR #<id> has been merged.`, with the PR check
as the only performed action (no fetch, no checkout); a tooling-repository
PR override is checked with `not_merged=False`, so a merged (or any found)
tooling PR still proceeds to the PR fetch, while a non-existent tooling PR
aborts with only its check performed. -/
theorem claim_C6_merged_gate :
    (∀ (penv : PrRunEnv) (config : Config) (pr_id : Nat) (tp : Option Nat),
      penv.cephPrLookup = PrLookup.found (some true) →
      (workflow_run_pr penv config pr_id tp).2.2 = Except.error 1 ∧
      (workflow_run_pr penv config pr_id tp).2.1 = [Event.checkPr "ceph" pr_id] ∧
      ("PR #" ++ toString pr_id ++ " has been merged.")
        ∈ (workflow_run_pr penv config pr_id tp).1) ∧
    (∀ (env : WorkflowEnv) (config : Config) (br : String) (id : Nat)
      (m : Option Bool), env.toolsPrLookup = PrLookup.found m →
      Event.prFetch "s3gw-tools" id ∈ (run_for_local env config br (some id)).1) ∧
    (∀ (env : WorkflowEnv) (config : Config) (br : String) (id : Nat),
      env.toolsPrLookup = PrLookup.notFound →
      (run_for_local env config br (some id)).2 = Except.error 1 ∧
      (run_for_local env config br (some id)).1 = [Event.checkPr "s3gw-tools" id]) := by
  refine ⟨?_, ?_, ?_⟩
  · intro penv config pr_id tp h
    unfold workflow_run_pr
    rw [h]
    simp [check_pr_exists]
  · intro env config br id m h
    unfold run_for_local
    rw [h]
    simp [check_pr_exists]
    split <;> simp
  · intro env config br id h
    unfold run_for_local
    rw [h]
    simp [check_pr_exists]

/-- C6 witness: PR 42 on ceph reported merged aborts with status 1, the
merged message and no fetch; a merged tooling PR 7 still gets fetched; a
missing tooling PR 7 aborts after its check. -/
theorem claim_C6_witness :
    (workflow_run_pr ⟨PrLookup.found (some true), Except.ok "b", envHarnessFail⟩
        cfg0 42 none).2.2 = Except.error 1 ∧
    ("PR #42 has been merged.")
      ∈ (workflow_run_pr ⟨PrLookup.found (some true), Except.ok "b", envHarnessFail⟩
          cfg0 42 none).1 ∧
    Event.prFetch "s3gw-tools" 7
      ∈ (run_for_local { envHarnessFail with toolsPrLookup := PrLookup.found (some true) }
          cfg0 "popcorn/origin/b" (some 7)).1 ∧
    (run_for_local { envHarnessFail with toolsPrLookup := PrLookup.notFound }
        cfg0 "popcorn/origin/b" (some 7)).2 = Except.error 1 :=
  ⟨(claim_C6_merged_gate.1 ⟨PrLookup.found (some true), Except.ok "b", envHarnessFail⟩
      cfg0 42 none rfl).1,
   (claim_C6_merged_gate.1 ⟨PrLookup.found (some true), Except.ok "b", envHarnessFail⟩
      cfg0 42 none rfl).2.2,
   claim_C6_merged_gate.2.1
     { envHarnessFail with toolsPrLookup := PrLookup.found (some true) }
     cfg0 "popcorn/origin/b" 7 (some true) rfl,
   (claim_C6_merged_gate.2.2
     { envHarnessFail with toolsPrLookup := PrLookup.notFound }
     cfg0 "popcorn/origin/b" 7 rfl).1⟩

/-! ## C7: remote resolution and the configuration fallback -/

/-- C7: when the requested remote (defaulted to `origin`) is unknown, a
matching `additional_repos` entry gets added as a remote and the flow
proceeds to the remote update; with no configuration list at all the run
aborts at once with the `unable to find remote '<remote>.'` message; with a
list but no matching entry it aborts (via the failed
`assert origin in remotes`) after echoing
`unable to find remote '<remote>' in config.` — in both abort cases the
process status is non-zero and no fetch is ever attempted. -/
theorem claim_C7_remote_fallback :
    (∀ (benv : BranchRunEnv) (config : Config) (name : String)
      (remote : Option String) (lst : List AdditionalRepositoryConfig)
      (r : AdditionalRepositoryConfig) (tp : Option Nat),
      benv.remotes.contains (originOf remote) = false →
      config.additional_repos = some lst →
      lst.find? (fun x => x.name == originOf remote) = some r →
      benv.addRemote = Except.ok () →
      Event.addRemote r.name (r.url ++ "/ceph")
        ∈ (workflow_run_branch benv config name remote tp).2.1 ∧
      Event.updateRemotes (originOf remote)
        ∈ (workflow_run_branch benv config name remote tp).2.1) ∧
    (∀ (benv : BranchRunEnv) (config : Config) (name : String)
      (remote : Option String) (tp : Option Nat),
      benv.remotes.contains (originOf remote) = false →
      config.additional_repos = none →
      (workflow_run_branch benv config name remote tp).2.2 = Except.error 1 ∧
      (workflow_run_branch benv config name remote tp).2.1 = [Event.getRemotes] ∧
      ("unable to find remote '" ++ pyShowOpt remote ++ ".'")
        ∈ (workflow_run_branch benv config name remote tp).1) ∧
    (∀ (benv : BranchRunEnv) (config : Config) (name : String)
      (remote : Option String) (lst : List AdditionalRepositoryConfig)
      (tp : Option Nat),
      benv.remotes.contains (originOf remote) = false →
      config.additional_repos = some lst →
      lst.find? (fun x => x.name == originOf remote) = none →
      (workflow_run_branch benv config name remote tp).2.2 = Except.error 1 ∧
      (workflow_run_branch benv config name remote tp).2.1
        = [Event.getRemotes, Event.getRemotes] ∧
      ("unable to find remote '" ++ pyShowOpt remote ++ "' in config.")
        ∈ (workflow_run_branch benv config name remote tp).1) := by
  refine ⟨?_, ?_, ?_⟩
  · intro benv config name remote lst r tp hcon hcfg hfind hadd
    have hcon2 : ¬ originOf remote ∈ benv.remotes := by simpa using hcon
    have hr : r.name = originOf remote := by
      have := List.find?_some hfind
      simpa using this
    simp only [workflow_run_branch, hcfg, hfind, hadd]
    simp [hcon2, hr]
    unfold branchAfterRemotes
    repeat' split
    all_goals simp
  · intro benv config name remote tp hcon hcfg
    have hcon2 : ¬ originOf remote ∈ benv.remotes := by simpa using hcon
    simp [workflow_run_branch, hcfg, hcon2]
  · intro benv config name remote lst tp hcon hcfg hfind
    have hcon2 : ¬ originOf remote ∈ benv.remotes := by simpa using hcon
    simp [workflow_run_branch, hcfg, hfind, hcon2]

/-- C7 witness: remote `upstream` unknown and no configuration list — the
run aborts with status 1, only the two remote listings happened, and the
message names the missing remote. -/
theorem claim_C7_witness :
    (workflow_run_branch ⟨["origin"], Except.ok (), Except.ok (), Except.ok "b",
        envHarnessFail⟩ cfg0 "fix-123" (some "upstream") none).2.2
      = Except.error 1 ∧
    ("unable to find remote 'upstream.'")
      ∈ (workflow_run_branch ⟨["origin"], Except.ok (), Except.ok (), Except.ok "b",
          envHarnessFail⟩ cfg0 "fix-123" (some "upstream") none).1 :=
  ⟨(claim_C7_remote_fallback.2.1 ⟨["origin"], Except.ok (), Except.ok (),
      Except.ok "b", envHarnessFail⟩ cfg0 "fix-123" (some "upstream") none
      (by decide) rfl).1,
   (claim_C7_remote_fallback.2.1 ⟨["origin"], Except.ok (), Except.ok (),
      Except.ok "b", envHarnessFail⟩ cfg0 "fix-123" (some "upstream") none
      (by decide) rfl).2.2⟩

/-! ## C8: branch fetch, namespaced local ref and the fast-forward case -/

/-- C8: `git.fetch` computes and returns the namespaced local ref
`popcorn/<origin>/<branch>`; it issues `git pull --force` exactly when the
currently checked-out branch equals that name and a plain `git fetch`
otherwise (both with refspec `<branch>:<localname>`); and a non-zero exit of
the issued command produces an error whose message carries the command's
standard-error output verbatim (as a suffix of the diagnostic). -/
theorem claim_C8_fetch (fenv : FetchEnv) (repo origin branch : String)
    (h0 : fenv.showCurrentReturncode = 0) :
    (fenv.cmdReturncode = 0 →
      git_fetch fenv repo origin branch
        = Except.ok
            (if pyStrip fenv.showCurrentStdout
                  == "popcorn/" ++ origin ++ "/" ++ branch then
               GitFetchCmd.pullForce origin
                 (branch ++ ":" ++ ("popcorn/" ++ origin ++ "/" ++ branch))
             else
               GitFetchCmd.fetchInto origin
                 (branch ++ ":" ++ ("popcorn/" ++ origin ++ "/" ++ branch)),
             "popcorn/" ++ origin ++ "/" ++ branch)) ∧
    (fenv.cmdReturncode ≠ 0 →
      git_fetch fenv repo origin branch
        = Except.error ("error fetching branch " ++ branch ++ " for repository "
            ++ repo ++ ": " ++ fenv.cmdStderr) ∧
      fenv.cmdStderr.data
        <:+ ("error fetching branch " ++ branch ++ " for repository "
            ++ repo ++ ": " ++ fenv.cmdStderr).data) := by
  constructor
  · intro hcmd
    unfold git_fetch
    simp only [h0]
    split
    · simp_all
    · simp only [hcmd]
      split <;> simp_all
  · intro hcmd
    constructor
    · unfold git_fetch
      simp only [h0]
      split
      · simp_all
      · split <;> simp_all
    · exact ⟨("error fetching branch " ++ branch ++ " for repository "
        ++ repo ++ ": ").data, by simp⟩

/-- C8 witness: with the current branch equal to `popcorn/origin/fix-123`
the issued command is the forced pull; with a failing command the error
message ends with the captured stderr text. -/
theorem claim_C8_witness :
    git_fetch ⟨0, "popcorn/origin/fix-123\n", "", 0, ""⟩ "ceph" "origin" "fix-123"
      = Except.ok (GitFetchCmd.pullForce "origin"
          ("fix-123" ++ ":" ++ ("popcorn/" ++ "origin" ++ "/" ++ "fix-123")),
          "popcorn/" ++ "origin" ++ "/" ++ "fix-123") ∧
    git_fetch ⟨0, "main", "", 128, "fatal: not a repository"⟩ "ceph" "origin" "b"
      = Except.error ("error fetching branch " ++ "b" ++ " for repository "
          ++ "ceph" ++ ": " ++ "fatal: not a repository") := by
  constructor
  · have h := ((claim_C8_fetch ⟨0, "popcorn/origin/fix-123\n", "", 0, ""⟩
      "ceph" "origin" "fix-123" rfl).1 rfl)
    rw [h]
    have hc : (pyStrip "popcorn/origin/fix-123\n"
        == "popcorn/" ++ "origin" ++ "/" ++ "fix-123") = true := by decide
    rw [hc]
    simp
  · exact ((claim_C8_fetch ⟨0, "main", "", 128, "fatal: not a repository"⟩
      "ceph" "origin" "b" rfl).2 (by decide)).1

/-! ## C9: step order, single registry listing, no retry -/

/-- Clean-working-tree events. -/
def isClean : Event → Bool
  | .clean _ => true
  | _ => false

/-- Checkout events. -/
def isCheckout : Event → Bool
  | .checkout _ _ => true
  | _ => false

/-- The registry-listing event. -/
def isListing : Event → Bool
  | .listImages => true
  | _ => false

/-- Revision-computation events. -/
def isRevision : Event → Bool
  | .getCommit _ => true
  | _ => false

/-- Artifact-cache lookup events. -/
def isCacheLookup : Event → Bool
  | .lookupS3gw _ => true
  | .lookupBuilder _ => true
  | _ => false

/-- Build actions: builder-image build, compile container, s3gw packaging. -/
def isBuildAction : Event → Bool
  | .buildBuilder _ => true
  | .runBuilder _ => true
  | .buildS3gw _ => true
  | _ => false

/-- Test-runner events. -/
def isTestAction : Event → Bool
  | .startS3gw _ => true
  | .runHarness => true
  | .stopS3gw => true
  | _ => false

/-- Tooling-PR preamble events. -/
def isPrEvt : Event → Bool
  | .checkPr _ _ => true
  | .prFetch _ _ => true
  | _ => false

/-- Events that can sit between the s3gw cache lookup and the test runner:
the tooling revision read, the builder lookup and the build actions. -/
def isMid : Event → Bool
  | .getCommit r => r == "s3gw-tools"
  | .lookupBuilder _ => true
  | .buildBuilder _ => true
  | .runBuilder _ => true
  | .buildS3gw _ => true
  | _ => false

/-- Every `p`-event of the trace occurs strictly before every `q`-event:
the trace splits into a first part with no `q`-event and a second part with
no `p`-event. -/
def SplitBefore (p q : Event → Bool) (tr : List Event) : Prop :=
  ∃ l₁ l₂, tr = l₁ ++ l₂ ∧ (∀ e ∈ l₁, q e = false) ∧ (∀ e ∈ l₂, p e = false)

/-- Number of `p`-events in a trace. -/
def countE (p : Event → Bool) (tr : List Event) : Nat := (tr.filter p).length

theorem dropVerdict_ok {x : Except Nat Bool} (h : dropVerdict x = Except.ok ()) :
    ∃ b, x = Except.ok b := by
  cases x <;> simp_all [dropVerdict]

theorem run_tests_ok_shape (tenv : TestEnv) (img : String) (b : Bool)
    (h : (run_tests tenv img).2 = Except.ok b) :
    (run_tests tenv img).1
      = [Event.startS3gw img, Event.runHarness, Event.stopS3gw] := by
  revert h
  unfold run_tests
  repeat' split
  all_goals intro h
  all_goals simp_all

theorem compileStage_ok_shape (env : WorkflowEnv) (b s : String)
    (h : (compileStage env b s).2 = Except.ok ()) :
    (compileStage env b s).1
      = [Event.runBuilder b, Event.buildS3gw s,
         Event.startS3gw s, Event.runHarness, Event.stopS3gw] := by
  revert h
  unfold compileStage
  repeat' split
  all_goals intro h
  all_goals try simp_all
  obtain ⟨bb, hb⟩ := dropVerdict_ok h
  rw [run_tests_ok_shape env.test s bb hb]

theorem builderStage_ok_shape (env : WorkflowEnv) (imgs : List PodmanImage)
    (s : String) (h : (builderStage env imgs s).2 = Except.ok ()) :
    ∃ mid, (builderStage env imgs s).1
        = mid ++ [Event.startS3gw s, Event.runHarness, Event.stopS3gw] ∧
      ∀ e ∈ mid, isMid e = true := by
  unfold builderStage at h ⊢
  rcases htc : env.toolsCommit with m | tc <;> rw [htc] at h
  · simp at h
  by_cases hlen : tc.length = 0
  · simp [hlen] at h
  simp only [if_neg hlen] at h ⊢
  rcases hfb : findBuilderImage imgs tc with _ | bimg <;> rw [hfb] at h
  · rcases hbb : env.buildBuilder with m | u <;> rw [hbb] at h
    · simp at h
    have hcs := compileStage_ok_shape env ("popcorn/builder:" ++ tc) s
      (by simpa using h)
    refine ⟨[Event.getCommit "s3gw-tools", Event.lookupBuilder tc,
      Event.buildBuilder tc, Event.runBuilder ("popcorn/builder:" ++ tc),
      Event.buildS3gw s], by simp [hcs], ?_⟩
    intro e he
    simp only [List.mem_cons, List.not_mem_nil, or_false] at he
    rcases he with rfl | rfl | rfl | rfl | rfl <;> simp [isMid]
  · have hcs := compileStage_ok_shape env (bimg.name ++ ":" ++ bimg.tag) s
      (by simpa using h)
    refine ⟨[Event.getCommit "s3gw-tools", Event.lookupBuilder tc,
      Event.runBuilder (bimg.name ++ ":" ++ bimg.tag), Event.buildS3gw s],
      by simp [hcs], ?_⟩
    intro e he
    simp only [List.mem_cons, List.not_mem_nil, or_false] at he
    rcases he with rfl | rfl | rfl | rfl <;> simp [isMid]

theorem buildPhase_ok_shape (env : WorkflowEnv) (imgs : List PodmanImage)
    (c : String) (h : (buildPhase env imgs c).2 = Except.ok ()) :
    ∃ mid s, (buildPhase env imgs c).1
        = Event.lookupS3gw c
            :: (mid ++ [Event.startS3gw s, Event.runHarness, Event.stopS3gw]) ∧
      ∀ e ∈ mid, isMid e = true := by
  unfold buildPhase at h ⊢
  rcases hf : findS3gwImage imgs c with _ | img <;> rw [hf] at h
  · obtain ⟨mid, hmid, hall⟩ :=
      builderStage_ok_shape env imgs ("popcorn/s3gw:" ++ c) (by simpa using h)
    exact ⟨mid, "popcorn/s3gw:" ++ c, by simp [hmid], hall⟩
  · obtain ⟨bb, hb⟩ := dropVerdict_ok (by simpa using h)
    exact ⟨[], img.name ++ ":" ++ img.tag,
      by simp [run_tests_ok_shape env.test _ bb hb], by simp⟩

theorem imagesPhase_ok_shape (env : WorkflowEnv)
    (h : (imagesPhase env).2 = Except.ok ()) :
    ∃ c mid s, (imagesPhase env).1
        = [Event.listImages, Event.getCommit "ceph", Event.lookupS3gw c]
          ++ mid ++ [Event.startS3gw s, Event.runHarness, Event.stopS3gw] ∧
      ∀ e ∈ mid, isMid e = true := by
  unfold imagesPhase at h ⊢
  rcases hi : env.images with m | imgs <;> rw [hi] at h
  · simp at h
  rcases hc : env.cephCommit with m | c <;> rw [hc] at h
  · simp at h
  by_cases hlen : c.length = 0
  · simp [hlen] at h
  simp only [if_neg hlen] at h ⊢
  obtain ⟨mid, s, hmid, hall⟩ := buildPhase_ok_shape env imgs c (by simpa using h)
  exact ⟨c, mid, s, by simp [hmid], hall⟩

theorem checkoutPhase_ok_shape (env : WorkflowEnv) (cb tb : String)
    (h : (checkoutPhase env cb tb).2 = Except.ok ()) :
    ∃ c mid s, (checkoutPhase env cb tb).1
        = [Event.clean "ceph", Event.clean "s3gw-tools",
           Event.checkout "ceph" cb, Event.checkout "s3gw-tools" tb,
           Event.listImages, Event.getCommit "ceph", Event.lookupS3gw c]
          ++ mid ++ [Event.startS3gw s, Event.runHarness, Event.stopS3gw] ∧
      ∀ e ∈ mid, isMid e = true := by
  unfold checkoutPhase at h ⊢
  rcases h1 : env.cleanCeph with m | u1 <;> rw [h1] at h
  · simp at h
  rcases h2 : env.cleanTools with m | u2 <;> rw [h2] at h
  · simp at h
  rcases h3 : env.checkoutCeph with m | u3 <;> rw [h3] at h
  · simp at h
  rcases h4 : env.checkoutTools with m | u4 <;> rw [h4] at h
  · simp at h
  obtain ⟨c, mid, s, hmid, hall⟩ := imagesPhase_ok_shape env (by simpa using h)
  exact ⟨c, mid, s, by simp [hmid], hall⟩

theorem run_for_local_ok_shape (env : WorkflowEnv) (config : Config)
    (br : String) (tp : Option Nat)
    (h : (run_for_local env config br tp).2 = Except.ok ()) :
    ∃ pr tb c mid s, (run_for_local env config br tp).1
        = pr ++ [Event.clean "ceph", Event.clean "s3gw-tools",
            Event.checkout "ceph" br, Event.checkout "s3gw-tools" tb,
            Event.listImages, Event.getCommit "ceph", Event.lookupS3gw c]
          ++ mid ++ [Event.startS3gw s, Event.runHarness, Event.stopS3gw] ∧
      (∀ e ∈ pr, isPrEvt e = true) ∧ (∀ e ∈ mid, isMid e = true) := by
  rcases tp with _ | id
  · have hred : run_for_local env config br none = checkoutPhase env br "main" := rfl
    rw [hred] at h ⊢
    obtain ⟨c, mid, s, hmid, hall⟩ := checkoutPhase_ok_shape env br "main" h
    exact ⟨[], "main", c, mid, s, by simp [hmid], by simp, hall⟩
  · have hred : run_for_local env config br (some id) =
        (match (check_pr_exists "s3gw-tools" id env.toolsPrLookup false).2 with
          | .error c => ([Event.checkPr "s3gw-tools" id], Except.error c)
          | .ok _ =>
            match env.toolsPrFetch with
            | .error _ =>
              ([Event.checkPr "s3gw-tools" id, Event.prFetch "s3gw-tools" id],
                Except.error 1)
            | .ok tools_branch =>
              let t := checkoutPhase env br tools_branch
              ([Event.checkPr "s3gw-tools" id, Event.prFetch "s3gw-tools" id]
                ++ t.1, t.2)) := rfl
    rw [hred] at h ⊢
    rcases hk : (check_pr_exists "s3gw-tools" id env.toolsPrLookup false).2
      with m | u
    · simp [hk] at h
    rcases hfp : env.toolsPrFetch with m | tb
    · simp [hk, hfp] at h
    obtain ⟨c, mid, s, hmid, hall⟩ :=
      checkoutPhase_ok_shape env br tb (by simpa [hk, hfp] using h)
    refine ⟨[Event.checkPr "s3gw-tools" id, Event.prFetch "s3gw-tools" id],
      tb, c, mid, s, by simp [hk, hfp, hmid], ?_, hall⟩
    intro e he
    simp only [List.mem_cons, List.not_mem_nil, or_false] at he
    rcases he with rfl | rfl <;> simp [isPrEvt]

theorem isPrEvt_not (e : Event) (h : isPrEvt e = true) :
    isClean e = false ∧ isCheckout e = false ∧ isListing e = false ∧
    isRevision e = false ∧ isCacheLookup e = false ∧ isBuildAction e = false ∧
    isTestAction e = false := by
  cases e <;> simp_all [isPrEvt, isClean, isCheckout, isListing, isRevision,
    isCacheLookup, isBuildAction, isTestAction]

theorem isMid_not (e : Event) (h : isMid e = true) :
    isClean e = false ∧ isCheckout e = false ∧ isListing e = false ∧
    isTestAction e = false := by
  cases e <;> simp_all [isMid, isClean, isCheckout, isListing, isTestAction]

theorem run_for_local_order (env : WorkflowEnv) (config : Config) (br : String)
    (tp : Option Nat) (h : (run_for_local env config br tp).2 = Except.ok ()) :
    SplitBefore isClean isCheckout (run_for_local env config br tp).1 ∧
    SplitBefore isCheckout isListing (run_for_local env config br tp).1 ∧
    SplitBefore isCheckout isRevision (run_for_local env config br tp).1 ∧
    SplitBefore isListing isCacheLookup (run_for_local env config br tp).1 ∧
    SplitBefore isBuildAction isTestAction (run_for_local env config br tp).1 ∧
    countE isListing (run_for_local env config br tp).1 = 1 := by
  obtain ⟨pr, tb, c, mid, s, htr, hpr, hmid⟩ :=
    run_for_local_ok_shape env config br tp h
  rw [htr]
  have hprn := fun e he => isPrEvt_not e (hpr e he)
  have hmidn := fun e he => isMid_not e (hmid e he)
  refine ⟨?_, ?_, ?_, ?_, ?_, ?_⟩
  · refine ⟨pr ++ [Event.clean "ceph", Event.clean "s3gw-tools"],
      [Event.checkout "ceph" br, Event.checkout "s3gw-tools" tb,
        Event.listImages, Event.getCommit "ceph", Event.lookupS3gw c]
        ++ mid ++ [Event.startS3gw s, Event.runHarness, Event.stopS3gw],
      by simp, ?_, ?_⟩
    · intro e he
      rcases List.mem_append.mp he with he | he
      · exact (hprn e he).2.1
      · simp only [List.mem_cons, List.not_mem_nil, or_false] at he
        rcases he with rfl | rfl <;> simp [isCheckout]
    · intro e he
      simp only [List.append_assoc, List.mem_append, List.mem_cons,
        List.not_mem_nil, or_false] at he
      rcases he with (rfl | rfl | rfl | rfl | rfl) | he | (rfl | rfl | rfl) <;>
        first
          | exact (hmidn e he).1
          | simp [isClean]
  · refine ⟨pr ++ [Event.clean "ceph", Event.clean "s3gw-tools",
        Event.checkout "ceph" br, Event.checkout "s3gw-tools" tb],
      [Event.listImages, Event.getCommit "ceph", Event.lookupS3gw c]
        ++ mid ++ [Event.startS3gw s, Event.runHarness, Event.stopS3gw],
      by simp, ?_, ?_⟩
    · intro e he
      rcases List.mem_append.mp he with he | he
      · exact (hprn e he).2.2.1
      · simp only [List.mem_cons, List.not_mem_nil, or_false] at he
        rcases he with rfl | rfl | rfl | rfl <;> simp [isListing]
    · intro e he
      simp only [List.append_assoc, List.mem_append, List.mem_cons,
        List.not_mem_nil, or_false] at he
      rcases he with (rfl | rfl | rfl) | he | (rfl | rfl | rfl) <;>
        first
          | exact (hmidn e he).2.1
          | simp [isCheckout]
  · refine ⟨pr ++ [Event.clean "ceph", Event.clean "s3gw-tools",
        Event.checkout "ceph" br, Event.checkout "s3gw-tools" tb],
      [Event.listImages, Event.getCommit "ceph", Event.lookupS3gw c]
        ++ mid ++ [Event.startS3gw s, Event.runHarness, Event.stopS3gw],
      by simp, ?_, ?_⟩
    · intro e he
      rcases List.mem_append.mp he with he | he
      · exact (hprn e he).2.2.2.1
      · simp only [List.mem_cons, List.not_mem_nil, or_false] at he
        rcases he with rfl | rfl | rfl | rfl <;> simp [isRevision]
    · intro e he
      simp only [List.append_assoc, List.mem_append, List.mem_cons,
        List.not_mem_nil, or_false] at he
      rcases he with (rfl | rfl | rfl) | he | (rfl | rfl | rfl) <;>
        first
          | exact (hmidn e he).2.1
          | simp [isCheckout]
  · refine ⟨pr ++ [Event.clean "ceph", Event.clean "s3gw-tools",
        Event.checkout "ceph" br, Event.checkout "s3gw-tools" tb,
        Event.listImages, Event.getCommit "ceph"],
      Event.lookupS3gw c
        :: (mid ++ [Event.startS3gw s, Event.runHarness, Event.stopS3gw]),
      by simp, ?_, ?_⟩
    · intro e he
      rcases List.mem_append.mp he with he | he
      · exact (hprn e he).2.2.2.2.1
      · simp only [List.mem_cons, List.not_mem_nil, or_false] at he
        rcases he with rfl | rfl | rfl | rfl | rfl | rfl <;> simp [isCacheLookup]
    · intro e he
      simp only [List.mem_append, List.mem_cons, List.not_mem_nil, or_false] at he
      rcases he with rfl | he | (rfl | rfl | rfl) <;>
        first
          | exact (hmidn e he).2.2.1
          | simp [isListing]
  · refine ⟨pr ++ [Event.clean "ceph", Event.clean "s3gw-tools",
        Event.checkout "ceph" br, Event.checkout "s3gw-tools" tb,
        Event.listImages, Event.getCommit "ceph", Event.lookupS3gw c] ++ mid,
      [Event.startS3gw s, Event.runHarness, Event.stopS3gw],
      by simp, ?_, ?_⟩
    · intro e he
      simp only [List.append_assoc, List.mem_append, List.mem_cons,
        List.not_mem_nil, or_false] at he
      rcases he with he | (rfl | rfl | rfl | rfl | rfl | rfl | rfl) | he
      · exact (hprn e he).2.2.2.2.2.2
      all_goals first
        | exact (hmidn e he).2.2.2
        | simp [isTestAction]
    · intro e he
      simp only [List.mem_cons, List.not_mem_nil, or_false] at he
      rcases he with rfl | rfl | rfl <;> simp [isBuildAction]
  · have h1 : pr.filter isListing = [] :=
      List.filter_eq_nil_iff.mpr (fun a ha => by simp [(hprn a ha).2.2.1])
    have h2 : mid.filter isListing = [] :=
      List.filter_eq_nil_iff.mpr (fun a ha => by simp [(hmidn a ha).2.2.1])
    simp [countE, List.filter_append, h1, h2, isListing]

/-- The step-kind fingerprint of an event: repository names (string literals
in the source) are kept, run-dependent payloads (refs, commits, image names,
PR ids) are erased.  Two events with the same fingerprint are the same step
of the workflow. -/
def ekey : Event → Event
  | .checkPr r _ => .checkPr r 0
  | .prFetch r _ => .prFetch r 0
  | .addRemote _ _ => .addRemote "" ""
  | .updateRemotes _ => .updateRemotes ""
  | .fetchBranch _ _ => .fetchBranch "" ""
  | .checkout r _ => .checkout r ""
  | .lookupS3gw _ => .lookupS3gw ""
  | .lookupBuilder _ => .lookupBuilder ""
  | .buildBuilder _ => .buildBuilder ""
  | .runBuilder _ => .runBuilder ""
  | .buildS3gw _ => .buildS3gw ""
  | .startS3gw _ => .startS3gw ""
  | e => e

/-- Workflow step fingerprints in canonical source order, test runner. -/
def testKeys : List Event := [.startS3gw "", .runHarness, .stopS3gw]

/-- Step fingerprints from the compile-and-package stage on. -/
def compileKeys : List Event := [.runBuilder "", .buildS3gw ""] ++ testKeys

/-- Step fingerprints from the builder stage on. -/
def builderKeys : List Event :=
  [.getCommit "s3gw-tools", .lookupBuilder "", .buildBuilder ""] ++ compileKeys

/-- Step fingerprints from the runtime-cache lookup on. -/
def buildKeys : List Event := [.lookupS3gw ""] ++ builderKeys

/-- Step fingerprints from the registry listing on. -/
def imagesKeys : List Event := [.listImages, .getCommit "ceph"] ++ buildKeys

/-- Step fingerprints from the clean step on. -/
def checkoutKeys : List Event :=
  [.clean "ceph", .clean "s3gw-tools", .checkout "ceph" "",
   .checkout "s3gw-tools" ""] ++ imagesKeys

/-- All step fingerprints of `run_for_local`, in canonical source order. -/
def localKeys : List Event :=
  [.checkPr "s3gw-tools" 0, .prFetch "s3gw-tools" 0] ++ checkoutKeys

theorem run_tests_sub (tenv : TestEnv) (img : String) :
    List.Sublist ((run_tests tenv img).1.map ekey) testKeys := by
  unfold run_tests
  repeat' split
  all_goals simp [ekey, testKeys]

theorem compileStage_sub (env : WorkflowEnv) (b s : String) :
    List.Sublist ((compileStage env b s).1.map ekey) compileKeys := by
  unfold compileStage
  repeat' split
  · simp [ekey, compileKeys, testKeys]
  · simp [ekey, compileKeys, testKeys]
  · rw [List.map_append]
    exact List.Sublist.append (by simp [ekey]) (run_tests_sub env.test s)

theorem builderStage_sub (env : WorkflowEnv) (imgs : List PodmanImage)
    (s : String) :
    List.Sublist ((builderStage env imgs s).1.map ekey) builderKeys := by
  unfold builderStage
  rcases env.toolsCommit with m | tc
  · simp [ekey, builderKeys, compileKeys, testKeys]
  by_cases hlen : tc.length = 0
  · simp [hlen, ekey, builderKeys, compileKeys, testKeys]
  simp only [if_neg hlen]
  rcases findBuilderImage imgs tc with _ | bimg
  · rcases env.buildBuilder with m | u
    · simp [ekey, builderKeys, compileKeys, testKeys]
    · have h := compileStage_sub env ("popcorn/builder:" ++ tc) s
      rw [show builderKeys
          = [Event.getCommit "s3gw-tools", Event.lookupBuilder "",
             Event.buildBuilder ""] ++ compileKeys from rfl]
      rw [show ([Event.getCommit "s3gw-tools", Event.lookupBuilder tc,
          Event.buildBuilder tc]
          ++ (compileStage env ("popcorn/builder:" ++ tc) s).1).map ekey
          = [Event.getCommit "s3gw-tools", Event.lookupBuilder "",
             Event.buildBuilder ""]
            ++ (compileStage env ("popcorn/builder:" ++ tc) s).1.map ekey from
        by simp [ekey]]
      exact List.Sublist.append (by simp) h
  · have h := compileStage_sub env (bimg.name ++ ":" ++ bimg.tag) s
    rw [show builderKeys
        = [Event.getCommit "s3gw-tools", Event.lookupBuilder "",
           Event.buildBuilder ""] ++ compileKeys from rfl]
    rw [show ([Event.getCommit "s3gw-tools", Event.lookupBuilder tc]
        ++ (compileStage env (bimg.name ++ ":" ++ bimg.tag) s).1).map ekey
        = [Event.getCommit "s3gw-tools", Event.lookupBuilder ""]
          ++ (compileStage env (bimg.name ++ ":" ++ bimg.tag) s).1.map ekey from
      by simp [ekey]]
    exact List.Sublist.append
      (by exact .cons₂ _ (.cons₂ _ (.cons _ .slnil))) h

theorem buildPhase_sub (env : WorkflowEnv) (imgs : List PodmanImage)
    (c : String) :
    List.Sublist ((buildPhase env imgs c).1.map ekey) buildKeys := by
  unfold buildPhase
  rcases findS3gwImage imgs c with _ | img
  · have h := builderStage_sub env imgs ("popcorn/s3gw:" ++ c)
    rw [show buildKeys = [Event.lookupS3gw ""] ++ builderKeys from rfl]
    rw [show (Event.lookupS3gw c
        :: (builderStage env imgs ("popcorn/s3gw:" ++ c)).1).map ekey
        = [Event.lookupS3gw ""]
          ++ (builderStage env imgs ("popcorn/s3gw:" ++ c)).1.map ekey from
      by simp [ekey]]
    exact List.Sublist.append (by simp) h
  · have h := run_tests_sub env.test (img.name ++ ":" ++ img.tag)
    rw [show buildKeys = [Event.lookupS3gw ""] ++ builderKeys from rfl]
    rw [show (Event.lookupS3gw c
        :: (run_tests env.test (img.name ++ ":" ++ img.tag)).1).map ekey
        = [Event.lookupS3gw ""]
          ++ (run_tests env.test (img.name ++ ":" ++ img.tag)).1.map ekey from
      by simp [ekey]]
    exact List.Sublist.append (by simp) (h.trans (by decide))

theorem imagesPhase_sub (env : WorkflowEnv) :
    List.Sublist ((imagesPhase env).1.map ekey) imagesKeys := by
  unfold imagesPhase
  repeat' split
  · simp [ekey, imagesKeys, buildKeys, builderKeys, compileKeys, testKeys]
  · simp [ekey, imagesKeys, buildKeys, builderKeys, compileKeys, testKeys]
  · simp [ekey, imagesKeys, buildKeys, builderKeys, compileKeys, testKeys]
  · rw [show imagesKeys
        = [Event.listImages, Event.getCommit "ceph"] ++ buildKeys from rfl]
    rw [List.map_append]
    exact List.Sublist.append (by simp [ekey]) (buildPhase_sub env _ _)

theorem checkoutPhase_sub (env : WorkflowEnv) (cb tb : String) :
    List.Sublist ((checkoutPhase env cb tb).1.map ekey) checkoutKeys := by
  unfold checkoutPhase
  repeat' split
  · simp [ekey, checkoutKeys, imagesKeys, buildKeys, builderKeys, compileKeys,
      testKeys]
  · simp [ekey, checkoutKeys, imagesKeys, buildKeys, builderKeys, compileKeys,
      testKeys]
  · simp [ekey, checkoutKeys, imagesKeys, buildKeys, builderKeys, compileKeys,
      testKeys]
  · simp [ekey, checkoutKeys, imagesKeys, buildKeys, builderKeys, compileKeys,
      testKeys]
  · rw [show checkoutKeys
        = [Event.clean "ceph", Event.clean "s3gw-tools", Event.checkout "ceph" "",
           Event.checkout "s3gw-tools" ""] ++ imagesKeys from rfl]
    rw [show ([Event.clean "ceph", Event.clean "s3gw-tools",
        Event.checkout "ceph" cb, Event.checkout "s3gw-tools" tb]
        ++ (imagesPhase env).1).map ekey
        = [Event.clean "ceph", Event.clean "s3gw-tools", Event.checkout "ceph" "",
           Event.checkout "s3gw-tools" ""] ++ (imagesPhase env).1.map ekey from
      by simp [ekey]]
    exact List.Sublist.append (by simp) (imagesPhase_sub env)

theorem run_for_local_sub (env : WorkflowEnv) (config : Config) (br : String)
    (tp : Option Nat) :
    List.Sublist ((run_for_local env config br tp).1.map ekey) localKeys := by
  rcases tp with _ | id
  · have hred : run_for_local env config br none = checkoutPhase env br "main" := rfl
    rw [hred]
    exact (checkoutPhase_sub env br "main").trans (by decide)
  · have hred : run_for_local env config br (some id) =
        (match (check_pr_exists "s3gw-tools" id env.toolsPrLookup false).2 with
          | .error c => ([Event.checkPr "s3gw-tools" id], Except.error c)
          | .ok _ =>
            match env.toolsPrFetch with
            | .error _ =>
              ([Event.checkPr "s3gw-tools" id, Event.prFetch "s3gw-tools" id],
                Except.error 1)
            | .ok tools_branch =>
              let t := checkoutPhase env br tools_branch
              ([Event.checkPr "s3gw-tools" id, Event.prFetch "s3gw-tools" id]
                ++ t.1, t.2)) := rfl
    rw [hred]
    rcases (check_pr_exists "s3gw-tools" id env.toolsPrLookup false).2 with m | u
    · rw [show ([Event.checkPr "s3gw-tools" id] : List Event).map ekey
          = [Event.checkPr "s3gw-tools" 0] from by simp [ekey]]
      decide
    rcases env.toolsPrFetch with m | tb
    · rw [show ([Event.checkPr "s3gw-tools" id, Event.prFetch "s3gw-tools" id]
          : List Event).map ekey
          = [Event.checkPr "s3gw-tools" 0, Event.prFetch "s3gw-tools" 0] from
        by simp [ekey]]
      decide
    · have h := checkoutPhase_sub env br tb
      rw [show localKeys
          = [Event.checkPr "s3gw-tools" 0, Event.prFetch "s3gw-tools" 0]
            ++ checkoutKeys from rfl]
      rw [show ([Event.checkPr "s3gw-tools" id, Event.prFetch "s3gw-tools" id]
          ++ (checkoutPhase env br tb).1).map ekey
          = [Event.checkPr "s3gw-tools" 0, Event.prFetch "s3gw-tools" 0]
            ++ (checkoutPhase env br tb).1.map ekey from by simp [ekey]]
      exact List.Sublist.append (by simp) h

theorem run_for_local_no_retry (env : WorkflowEnv) (config : Config)
    (br : String) (tp : Option Nat) :
    ((run_for_local env config br tp).1.map ekey).Nodup :=
  List.Nodup.sublist (run_for_local_sub env config br tp) (by decide)

/-- C9: in every successful run both clean steps come before both checkouts;
both checkouts come before the registry listing and before any revision
computation; the registry listing happens exactly once and before both
artifact-cache lookups (both lookups scan that one snapshot: the same
`images` value feeds `findS3gwImage` and `findBuilderImage`); every build
action completes before the first test-runner action.  Moreover — for every
run, failed or not — no workflow step (per repository) ever occurs twice:
the fingerprinted trace is duplicate-free, so a failing step aborts the run
without any retry. -/
theorem claim_C9_order_and_no_retry :
    (∀ (env : WorkflowEnv) (config : Config) (br : String) (tp : Option Nat),
      (run_for_local env config br tp).2 = Except.ok () →
      SplitBefore isClean isCheckout (run_for_local env config br tp).1 ∧
      SplitBefore isCheckout isListing (run_for_local env config br tp).1 ∧
      SplitBefore isCheckout isRevision (run_for_local env config br tp).1 ∧
      SplitBefore isListing isCacheLookup (run_for_local env config br tp).1 ∧
      SplitBefore isBuildAction isTestAction (run_for_local env config br tp).1 ∧
      countE isListing (run_for_local env config br tp).1 = 1) ∧
    (∀ (env : WorkflowEnv) (config : Config) (br : String) (tp : Option Nat),
      ((run_for_local env config br tp).1.map ekey).Nodup) :=
  ⟨run_for_local_order, run_for_local_no_retry⟩

/-- C9 witness: the ordering facts instantiated on the all-ok fast-path
environment, whose run succeeds. -/
theorem claim_C9_witness :
    SplitBefore isClean isCheckout
      (run_for_local envHarnessFail cfg0 "popcorn/origin/b" none).1 ∧
    SplitBefore isCheckout isListing
      (run_for_local envHarnessFail cfg0 "popcorn/origin/b" none).1 ∧
    SplitBefore isCheckout isRevision
      (run_for_local envHarnessFail cfg0 "popcorn/origin/b" none).1 ∧
    SplitBefore isListing isCacheLookup
      (run_for_local envHarnessFail cfg0 "popcorn/origin/b" none).1 ∧
    SplitBefore isBuildAction isTestAction
      (run_for_local envHarnessFail cfg0 "popcorn/origin/b" none).1 ∧
    countE isListing (run_for_local envHarnessFail cfg0 "popcorn/origin/b" none).1
      = 1 :=
  claim_C9_order_and_no_retry.1 envHarnessFail cfg0 "popcorn/origin/b" none rfl

end Popcorn
